import Mathlib

/-!
# Shallow embedding of `src/src/driver.c` (STM8 BLDC motor driver)

This file embeds the BLDC motor-control driver into Lean: the per-channel
PWM state enumeration, the duty-cycle/polarity translation (`_set_output`,
`PWM_set_outputs`), the six-step commutation table (`bldc_move`), the
commutation stepper (`BLDC_Step`) and the top-level state machine over the
driver's global variables (`BLDC_Stop`, `BLDC_Spd_inc`, `BLDC_Spd_dec`,
`BLDC_Update`).

Machine integers: the driver's `uint16_t` values are modelled as `Nat`;
the one subtraction that could wrap (`TIM2_PWM_PD - global_uDC` in
`_set_output`) is modelled with an explicit `% 2^16` (`usub16`).  The PWM
period constant `TIM2_PWM_PD` is defined in `parameter.h`, which is not
part of the repository, so every definition that needs it takes it as an
explicit `Nat` argument named `TIM2_PWM_PD`.

Hardware side effects (TIM1/TIM3 peripheral registers, GPIO output data
registers) are modelled as the values the driver writes: a `PhaseCommand`
records, per phase, whether the TIM1 compare channel is enabled, the
compare value written when it is, and the GPIO level driven when it is
not; the three gate-driver shutdown bits (PC5, PC7, PG1) are modelled as
a triple of `Bool`.
-/

namespace Driver

/-- PWM state of each channel: the `DC_PWM_STATE` enum of driver.c. -/
inductive DC_PWM_STATE_t where
  | DC_OUTP_OFF
  | DC_PWM_PLUS
  | DC_PWM_MINUS
  | DC_OUTP_HI
  | DC_OUTP_LO
  | DC_OUTP_FLOAT
deriving DecidableEq, Repr

/-- Modelled from the spec: `BLDC_STATE_T` is declared in `parameter.h`,
which is not in the repository sources; driver.c uses the three values
`BLDC_OFF`, `BLDC_RAMPUP`, `BLDC_ON`, matching the spec's motor states
OFF, RAMP_UP, ON. -/
inductive BLDC_STATE_T where
  | BLDC_OFF
  | BLDC_RAMPUP
  | BLDC_ON
deriving DecidableEq, Repr

/-- `BLDC_ONE_RAMP_UNIT`: the ramp shortens the commutation time by one
ramp unit per ramp step. -/
def BLDC_ONE_RAMP_UNIT : Nat := 1

/-- `BLDC_OL_TM_LO_SPD`: start-of-ramp (low-speed) commutation period. -/
def BLDC_OL_TM_LO_SPD : Nat := 512

/-- `BLDC_OL_TM_HI_SPD`: end-of-ramp (high-speed) commutation period. -/
def BLDC_OL_TM_HI_SPD : Nat := 80

/-- `BLDC_OL_TM_MANUAL_HI_LIM`: lowest commutation period reachable by
manual speed-increase commands. -/
def BLDC_OL_TM_MANUAL_HI_LIM : Nat := 64

/-- `PWM_0PCNT` : zero duty. -/
def PWM_0PCNT : Nat := 0

/-- `PWM_100PCNT` is `TIM2_PWM_PD`, the full PWM period. -/
def PWM_100PCNT (TIM2_PWM_PD : Nat) : Nat := TIM2_PWM_PD

/-- `PWM_50PCNT` : half the PWM period (C integer division). -/
def PWM_50PCNT (TIM2_PWM_PD : Nat) : Nat := PWM_100PCNT TIM2_PWM_PD / 2

/-- `PWM_25PCNT` : a quarter of the PWM period (C integer division). -/
def PWM_25PCNT (TIM2_PWM_PD : Nat) : Nat := PWM_100PCNT TIM2_PWM_PD / 4

/-- `PWM_DC_RAMPUP`: the fixed duty cycle commanded during ramp-up. -/
def PWM_DC_RAMPUP (TIM2_PWM_PD : Nat) : Nat := PWM_50PCNT TIM2_PWM_PD

/-- `PWM_NOT_MANUAL_DEF`: the nominal run duty cycle (the driver is
compiled without `PWM_IS_MANUAL`). -/
def PWM_NOT_MANUAL_DEF (TIM2_PWM_PD : Nat) : Nat := PWM_25PCNT TIM2_PWM_PD

/-- C `uint16_t` subtraction `a - b` (wraps modulo `2^16`); faithful for
`b ≤ 65536`. -/
def usub16 (a b : Nat) : Nat := (a + 65536 - b) % 65536

/-- `_set_output` (driver.c:148): pure translation from a channel's
`DC_PWM_STATE` and the current global duty cycle to the TIM1 pulse
(compare) value.  The C `default` case falls together with
`DC_OUTP_FLOAT`/`DC_OUTP_LO`. -/
def _set_output (TIM2_PWM_PD global_uDC : Nat) (chan : Nat) (state0 : DC_PWM_STATE_t) : Nat :=
  match chan, state0 with
  | _, .DC_OUTP_FLOAT => PWM_0PCNT
  | _, .DC_OUTP_LO => PWM_0PCNT
  | _, .DC_OUTP_OFF => PWM_0PCNT
  | _, .DC_OUTP_HI => PWM_100PCNT TIM2_PWM_PD
  | _, .DC_PWM_PLUS => global_uDC
  | _, .DC_PWM_MINUS => usub16 TIM2_PWM_PD global_uDC

/-- What `PWM_set_outputs` drives onto one phase: whether the TIM1
output-compare channel is enabled, the compare value written when it is
(`none` otherwise: the register is not written), and the GPIO output
level driven when the channel is disabled (`none` when the pin is left
under timer control). -/
structure PhaseCommand where
  cc_enabled : Bool
  compare : Option Nat
  odr : Option Bool
deriving DecidableEq, Repr

/-- One channel block of `PWM_set_outputs` (driver.c:216, 239, 262): the
TIM1 compare channel is enabled, and its compare register written from
`_set_output`, exactly when the commanded state is `DC_PWM_PLUS`;
otherwise the channel is disabled and the GPIO pin is driven high for
`DC_OUTP_HI` and low for every other state. -/
def PWM_set_output_channel (TIM2_PWM_PD global_uDC : Nat) (chan : Nat)
    (state0 : DC_PWM_STATE_t) : PhaseCommand :=
  if state0 = .DC_PWM_PLUS then
    { cc_enabled := true
      compare := some (_set_output TIM2_PWM_PD global_uDC chan state0)
      odr := none }
  else
    { cc_enabled := false
      compare := none
      odr := some (if state0 = .DC_OUTP_HI then true else false) }

/-- `PWM_set_outputs` (driver.c:201): applies the per-channel block to
the three phases A, B, C (TIM1 channels 2, 3, 4 / pins PC2, PC3, PC4). -/
def PWM_set_outputs (TIM2_PWM_PD global_uDC : Nat)
    (state0 state1 state2 : DC_PWM_STATE_t) :
    PhaseCommand × PhaseCommand × PhaseCommand :=
  (PWM_set_output_channel TIM2_PWM_PD global_uDC 0 state0,
   PWM_set_output_channel TIM2_PWM_PD global_uDC 1 state1,
   PWM_set_output_channel TIM2_PWM_PD global_uDC 2 state2)

/-- The per-sector drive-state triple passed to `PWM_set_outputs` by
`bldc_move` (driver.c:450); the C `default` case falls through to
case 0 (SECTOR_1). -/
def bldc_move_states (step : Nat) : DC_PWM_STATE_t × DC_PWM_STATE_t × DC_PWM_STATE_t :=
  match step with
  | 1 => (.DC_PWM_PLUS, .DC_OUTP_FLOAT, .DC_OUTP_LO)
  | 2 => (.DC_OUTP_FLOAT, .DC_PWM_PLUS, .DC_OUTP_LO)
  | 3 => (.DC_OUTP_LO, .DC_PWM_PLUS, .DC_OUTP_FLOAT)
  | 4 => (.DC_OUTP_LO, .DC_OUTP_FLOAT, .DC_PWM_PLUS)
  | 5 => (.DC_OUTP_FLOAT, .DC_OUTP_LO, .DC_PWM_PLUS)
  | _ => (.DC_PWM_PLUS, .DC_OUTP_LO, .DC_OUTP_FLOAT)

/-- The per-sector gate-driver shutdown (`/SD`) output levels written by
`bldc_move` to PC5, PC7, PG1 (phases A, B, C): `true` when the phase's
driver is enabled, `false` when it is shut down (floating). -/
def bldc_move_sd (step : Nat) : Bool × Bool × Bool :=
  match step with
  | 1 => (true, false, true)
  | 2 => (false, true, true)
  | 3 => (true, true, false)
  | 4 => (true, false, true)
  | 5 => (false, true, true)
  | _ => (true, true, false)

/-- `bldc_move` (driver.c:436): for the given commutation step, drive
the three `/SD` pins and hand the sector's drive-state triple to
`PWM_set_outputs`. -/
def bldc_move (TIM2_PWM_PD global_uDC : Nat) (step : Nat) :
    (Bool × Bool × Bool) × (PhaseCommand × PhaseCommand × PhaseCommand) :=
  (bldc_move_sd step,
   PWM_set_outputs TIM2_PWM_PD global_uDC
     (bldc_move_states step).1 (bldc_move_states step).2.1 (bldc_move_states step).2.2)

/-- `BLDC_Step` (driver.c:402): advance the static sector counter
`(bldc_step + 1) % 6` (`N_CSTEPS = 6`); if the global duty cycle is
positive, commutate via `bldc_move` at the new sector, otherwise clear
all three `/SD` pins and command all channels `DC_OUTP_OFF`.  Returns
the new sector together with the driven outputs. -/
def BLDC_Step (TIM2_PWM_PD global_uDC : Nat) (bldc_step : Nat) :
    Nat × ((Bool × Bool × Bool) × (PhaseCommand × PhaseCommand × PhaseCommand)) :=
  ((bldc_step + 1) % 6,
   if 0 < global_uDC then
     bldc_move TIM2_PWM_PD global_uDC ((bldc_step + 1) % 6)
   else
     ((false, false, false),
      PWM_set_outputs TIM2_PWM_PD global_uDC .DC_OUTP_OFF .DC_OUTP_OFF .DC_OUTP_OFF))

/-- The driver's mutable globals that the speed/mode controller touches:
`BLDC_State`, the open-loop commutation period `BLDC_OL_comm_tm`
(`uint16_t`), and the commanded duty cycle `global_uDC` (`uint16_t`). -/
structure BLDC_Globals where
  BLDC_State : BLDC_STATE_T
  BLDC_OL_comm_tm : Nat
  global_uDC : Nat
deriving DecidableEq, Repr

/-- `PWM_Set_DC` (driver.c:134): store the requested duty cycle into
`global_uDC`.  The body's `BLDC_OFF` branch is empty (the assignment
`global_uDC = 0` is commented out), so the store is unconditional. -/
def PWM_Set_DC (s : BLDC_Globals) (pwm_dc : Nat) : BLDC_Globals :=
  { s with global_uDC := pwm_dc }

/-- `BLDC_Stop` (driver.c:295): set the state to `BLDC_OFF`, then
`PWM_Set_DC(0)`. -/
def BLDC_Stop (s : BLDC_Globals) : BLDC_Globals :=
  PWM_Set_DC { s with BLDC_State := .BLDC_OFF } 0

/-- `BLDC_Spd_dec` (driver.c:304): from `BLDC_OFF` go to `BLDC_RAMPUP`
(leaving the commutation period untouched); then, if the state is
`BLDC_ON` and the period is below `0xFFFF`, lengthen the period by 1. -/
def BLDC_Spd_dec (s : BLDC_Globals) : BLDC_Globals :=
  let s1 := if s.BLDC_State = .BLDC_OFF then { s with BLDC_State := .BLDC_RAMPUP } else s
  if s1.BLDC_State = .BLDC_ON ∧ s1.BLDC_OL_comm_tm < 0xFFFF then
    { s1 with BLDC_OL_comm_tm := s1.BLDC_OL_comm_tm + 1 }
  else s1

/-- `BLDC_Spd_inc` (driver.c:321): from `BLDC_OFF` go to `BLDC_RAMPUP`
(leaving the commutation period untouched); then, if the state is
`BLDC_ON` and the period is above `BLDC_OL_TM_MANUAL_HI_LIM`, shorten
the period by 1. -/
def BLDC_Spd_inc (s : BLDC_Globals) : BLDC_Globals :=
  let s1 := if s.BLDC_State = .BLDC_OFF then { s with BLDC_State := .BLDC_RAMPUP } else s
  if s1.BLDC_State = .BLDC_ON ∧ BLDC_OL_TM_MANUAL_HI_LIM < s1.BLDC_OL_comm_tm then
    { s1 with BLDC_OL_comm_tm := s1.BLDC_OL_comm_tm - 1 }
  else s1

/-- `BLDC_Update` (driver.c:353), the per-tick handler.  `BLDC_OFF`
(also the C `default`): reset the commutation period to
`BLDC_OL_TM_LO_SPD`.  `BLDC_ON`: nothing (the driver is compiled
without `PWM_IS_MANUAL`, so that branch is empty).  `BLDC_RAMPUP`:
command the ramp duty `PWM_DC_RAMPUP`; if the period is still above
`BLDC_OL_TM_HI_SPD` shorten it by `BLDC_ONE_RAMP_UNIT`, otherwise go to
`BLDC_ON` and command `PWM_NOT_MANUAL_DEF`.  The trailing
`TIM3_setup(BLDC_OL_comm_tm)` programs an external timer peripheral and
does not change these globals. -/
def BLDC_Update (TIM2_PWM_PD : Nat) (s : BLDC_Globals) : BLDC_Globals :=
  match s.BLDC_State with
  | .BLDC_OFF => { s with BLDC_OL_comm_tm := BLDC_OL_TM_LO_SPD }
  | .BLDC_ON => s
  | .BLDC_RAMPUP =>
    let s1 := PWM_Set_DC s (PWM_DC_RAMPUP TIM2_PWM_PD)
    if BLDC_OL_TM_HI_SPD < s1.BLDC_OL_comm_tm then
      { s1 with BLDC_OL_comm_tm := s1.BLDC_OL_comm_tm - BLDC_ONE_RAMP_UNIT }
    else
      PWM_Set_DC { s1 with BLDC_State := .BLDC_ON } (PWM_NOT_MANUAL_DEF TIM2_PWM_PD)

/-- The driver's external entry points that mutate the globals. -/
inductive BLDC_Cmd where
  | stop
  | spd_inc
  | spd_dec
  | update

/-- Run one entry point on the globals. -/
def BLDC_run (TIM2_PWM_PD : Nat) (c : BLDC_Cmd) (s : BLDC_Globals) : BLDC_Globals :=
  match c with
  | .stop => BLDC_Stop s
  | .spd_inc => BLDC_Spd_inc s
  | .spd_dec => BLDC_Spd_dec s
  | .update => BLDC_Update TIM2_PWM_PD s

/-- Modelled from the spec: the power-on values of the globals.  The C
globals are zero-initialised at startup (startup code and `parameter.h`
are not in the repository sources); per the spec the motor starts in the
OFF state with the outputs fully disabled (duty 0). -/
def BLDC_init : BLDC_Globals :=
  { BLDC_State := .BLDC_OFF, BLDC_OL_comm_tm := 0, global_uDC := 0 }

/-- States of the globals reachable from power-on by any sequence of the
driver's entry points. -/
inductive BLDC_Reachable (TIM2_PWM_PD : Nat) : BLDC_Globals → Prop where
  | init : BLDC_Reachable TIM2_PWM_PD BLDC_init
  | step (c : BLDC_Cmd) (s : BLDC_Globals) (h : BLDC_Reachable TIM2_PWM_PD s) :
      BLDC_Reachable TIM2_PWM_PD (BLDC_run TIM2_PWM_PD c s)

/-! ## Theorems -/

/-- Number of slots of a drive-state triple equal to `x`. -/
def countIntent (t : DC_PWM_STATE_t × DC_PWM_STATE_t × DC_PWM_STATE_t)
    (x : DC_PWM_STATE_t) : Nat :=
  (if t.1 = x then 1 else 0) + (if t.2.1 = x then 1 else 0) + (if t.2.2 = x then 1 else 0)

/-- Claim C1: for every sector 0..5, the fixed commutation table of
`bldc_move` drives exactly one phase with PWM (`DC_PWM_PLUS`), forces
exactly one phase low (`DC_OUTP_LO`), leaves exactly one phase floating
(`DC_OUTP_FLOAT`), and never commands `DC_OUTP_HI`, so no sector puts
two phases on conflicting supply rails and the PWM-driven phase is never
also forced to a rail; moreover the gate-driver shutdown bit written by
`bldc_move` disables exactly the floating phase. -/
theorem bldc_move_table_safe :
    ∀ s : Fin 6,
      countIntent (bldc_move_states s.val) .DC_PWM_PLUS = 1
      ∧ countIntent (bldc_move_states s.val) .DC_OUTP_LO = 1
      ∧ countIntent (bldc_move_states s.val) .DC_OUTP_FLOAT = 1
      ∧ countIntent (bldc_move_states s.val) .DC_OUTP_HI = 0
      ∧ (bldc_move_sd s.val).1 = ((bldc_move_states s.val).1 ≠ .DC_OUTP_FLOAT)
      ∧ (bldc_move_sd s.val).2.1 = ((bldc_move_states s.val).2.1 ≠ .DC_OUTP_FLOAT)
      ∧ (bldc_move_sd s.val).2.2 = ((bldc_move_states s.val).2.2 ≠ .DC_OUTP_FLOAT) := by
  decide

/-- Claim C2 counterexample: `BLDC_Stop` called from `BLDC_ON` with
commutation period 10 and duty 30 sets the state to `BLDC_OFF` and the
duty to 0, but leaves the commutation period at 10, not
`BLDC_OL_TM_LO_SPD`: the period reset is not performed in the stop call
itself. -/
theorem BLDC_Stop_counterexample :
    (BLDC_Stop ⟨.BLDC_ON, 10, 30⟩).BLDC_State = .BLDC_OFF
    ∧ (BLDC_Stop ⟨.BLDC_ON, 10, 30⟩).global_uDC = 0
    ∧ (BLDC_Stop ⟨.BLDC_ON, 10, 30⟩).BLDC_OL_comm_tm = 10
    ∧ ¬ (BLDC_Stop ⟨.BLDC_ON, 10, 30⟩).BLDC_OL_comm_tm = BLDC_OL_TM_LO_SPD := by
  decide

/-- Claim C2 (amended): from every state, `BLDC_Stop` immediately sets
the motor state to `BLDC_OFF` and the commanded duty to 0 while leaving
the commutation period unchanged; the period is reset to
`BLDC_OL_TM_LO_SPD` by the next tick (`BLDC_Update` in the `BLDC_OFF`
branch), so after stop-then-tick the globals are exactly
`(BLDC_OFF, BLDC_OL_TM_LO_SPD, 0)`. -/
theorem BLDC_Stop_immediate_then_tick :
    ∀ (TIM2_PWM_PD : Nat) (s : BLDC_Globals),
      (BLDC_Stop s).BLDC_State = .BLDC_OFF
      ∧ (BLDC_Stop s).global_uDC = 0
      ∧ (BLDC_Stop s).BLDC_OL_comm_tm = s.BLDC_OL_comm_tm
      ∧ BLDC_Update TIM2_PWM_PD (BLDC_Stop s) = ⟨.BLDC_OFF, BLDC_OL_TM_LO_SPD, 0⟩ :=
  fun _ _ => ⟨rfl, rfl, rfl, rfl⟩

/-- Claim C3: one `BLDC_Update` tick in `BLDC_RAMPUP` with period above
`BLDC_OL_TM_HI_SPD` shortens the period by exactly `BLDC_ONE_RAMP_UNIT`
(a strict decrease), keeps the state `BLDC_RAMPUP` and commands the
fixed ramp duty `PWM_DC_RAMPUP`; with period at or below
`BLDC_OL_TM_HI_SPD` it leaves the period unchanged, transitions to
`BLDC_ON` and commands the nominal duty `PWM_NOT_MANUAL_DEF`; and a tick
in `BLDC_ON` changes nothing, so the period never decreases further. -/
theorem BLDC_Update_rampup_tick :
    ∀ (TIM2_PWM_PD P d : Nat),
      BLDC_Update TIM2_PWM_PD ⟨.BLDC_RAMPUP, P, d⟩ =
        (if BLDC_OL_TM_HI_SPD < P then
          ⟨.BLDC_RAMPUP, P - BLDC_ONE_RAMP_UNIT, PWM_DC_RAMPUP TIM2_PWM_PD⟩
         else ⟨.BLDC_ON, P, PWM_NOT_MANUAL_DEF TIM2_PWM_PD⟩)
      ∧ BLDC_Update TIM2_PWM_PD ⟨.BLDC_ON, P, d⟩ = ⟨.BLDC_ON, P, d⟩
      ∧ (BLDC_OL_TM_HI_SPD < P →
          (BLDC_Update TIM2_PWM_PD ⟨.BLDC_RAMPUP, P, d⟩).BLDC_OL_comm_tm < P) := by
  intro TIM2_PWM_PD P d
  have hmain : BLDC_Update TIM2_PWM_PD ⟨.BLDC_RAMPUP, P, d⟩ =
      (if BLDC_OL_TM_HI_SPD < P then
        ⟨.BLDC_RAMPUP, P - BLDC_ONE_RAMP_UNIT, PWM_DC_RAMPUP TIM2_PWM_PD⟩
       else ⟨.BLDC_ON, P, PWM_NOT_MANUAL_DEF TIM2_PWM_PD⟩) := by
    simp only [BLDC_Update, PWM_Set_DC]
  refine ⟨hmain, rfl, ?_⟩
  intro h
  rw [hmain, if_pos h]
  have h1 : BLDC_OL_TM_HI_SPD = 80 := rfl
  have h2 : BLDC_ONE_RAMP_UNIT = 1 := rfl
  rw [h1] at h
  dsimp only
  rw [h2]
  omega

/-- Claim C3 witness: at period 512 (above `BLDC_OL_TM_HI_SPD = 80`) a
ramp tick strictly decreases the period. -/
theorem BLDC_Update_rampup_tick_witness :
    (BLDC_Update 260 ⟨.BLDC_RAMPUP, 512, 0⟩).BLDC_OL_comm_tm < 512 :=
  (BLDC_Update_rampup_tick 260 512 0).2.2 (by decide)

/-- Claim C4 counterexample: from ramp entry (period
`BLDC_OL_TM_LO_SPD = 512`, state `BLDC_RAMPUP`), the commutation period
is decremented on the very first tick and again on the second
consecutive tick: `BLDC_Update` decrements the period on every ramp
tick, with no internal countdown, stride reload or stride halving (the
variable `Ramp_Step_Tm` is declared but never read or written by any
function in driver.c). -/
theorem BLDC_Update_no_stride_counterexample :
    (BLDC_Update 260 ⟨.BLDC_RAMPUP, BLDC_OL_TM_LO_SPD, 0⟩).BLDC_OL_comm_tm = 511
    ∧ (BLDC_Update 260 (BLDC_Update 260 ⟨.BLDC_RAMPUP, BLDC_OL_TM_LO_SPD, 0⟩)).BLDC_OL_comm_tm
        = 510 := by
  decide

/-- Claim C4 (amended): on every ramp tick with the commutation period
still above `BLDC_OL_TM_HI_SPD`, `BLDC_Update` decrements the period by
exactly `BLDC_ONE_RAMP_UNIT`: the decay is linear, one unit per tick;
no countdown/stride mechanism is implemented (`Ramp_Step_Tm` is unused
dead state). -/
theorem BLDC_Update_rampup_linear_decay :
    ∀ (TIM2_PWM_PD P d : Nat), BLDC_OL_TM_HI_SPD < P →
      (BLDC_Update TIM2_PWM_PD ⟨.BLDC_RAMPUP, P, d⟩).BLDC_OL_comm_tm
        = P - BLDC_ONE_RAMP_UNIT := by
  intro TIM2_PWM_PD P d h
  simp only [BLDC_Update, PWM_Set_DC]
  rw [if_pos h]

/-- Claim C4 (amended) witness: concrete ramp tick at period 512. -/
theorem BLDC_Update_rampup_linear_decay_witness :
    (BLDC_Update 260 ⟨.BLDC_RAMPUP, 512, 0⟩).BLDC_OL_comm_tm = 512 - BLDC_ONE_RAMP_UNIT :=
  BLDC_Update_rampup_linear_decay 260 512 0 (by decide)

/-- Claim C5 counterexample: at PWM period 260 and commanded duty 30,
the output stage `PWM_set_outputs` handles a `DC_PWM_MINUS`
(DRIVE_INVERTED) intent by disabling the compare channel and driving
the pin low — it does not emit the compare value `PWM_PERIOD − duty`
(which would be 230); only `DC_PWM_PLUS` yields an enabled PWM compare
output. -/
theorem PWM_set_outputs_minus_counterexample :
    (PWM_set_outputs 260 30 .DC_PWM_MINUS .DC_OUTP_LO .DC_OUTP_FLOAT).1.cc_enabled = false
    ∧ (PWM_set_outputs 260 30 .DC_PWM_MINUS .DC_OUTP_LO .DC_OUTP_FLOAT).1.compare = none
    ∧ (PWM_set_outputs 260 30 .DC_PWM_MINUS .DC_OUTP_LO .DC_OUTP_FLOAT).1.odr = some false
    ∧ ¬ (PWM_set_outputs 260 30 .DC_PWM_MINUS .DC_OUTP_LO .DC_OUTP_FLOAT).1.compare
        = some (260 - 30) := by
  decide

/-- Claim C5 (amended): the phase-output translation is a deterministic
pure function of the drive intent and the commanded duty:
`DC_OUTP_FLOAT` and `DC_OUTP_LO` yield a disabled channel with the pin
low (and pulse value 0 in `_set_output`), `DC_OUTP_HI` yields a
disabled channel with the pin high (pulse value the full period),
`DC_PWM_PLUS` yields an enabled PWM channel with compare equal to the
commanded duty; the helper `_set_output` computes the complementary
value `PWM_PERIOD − duty` (modulo `2^16`) for `DC_PWM_MINUS`, but the
output stage enables a compare channel only for `DC_PWM_PLUS`, so a
`DC_PWM_MINUS` intent results in a disabled channel with the pin low,
the same as `DC_OUTP_LO`. -/
theorem PWM_output_translation :
    ∀ (TIM2_PWM_PD uDC chan : Nat),
      _set_output TIM2_PWM_PD uDC chan .DC_OUTP_FLOAT = 0
      ∧ _set_output TIM2_PWM_PD uDC chan .DC_OUTP_LO = 0
      ∧ _set_output TIM2_PWM_PD uDC chan .DC_OUTP_HI = PWM_100PCNT TIM2_PWM_PD
      ∧ _set_output TIM2_PWM_PD uDC chan .DC_PWM_PLUS = uDC
      ∧ _set_output TIM2_PWM_PD uDC chan .DC_PWM_MINUS = usub16 TIM2_PWM_PD uDC
      ∧ PWM_set_output_channel TIM2_PWM_PD uDC chan .DC_OUTP_FLOAT = ⟨false, none, some false⟩
      ∧ PWM_set_output_channel TIM2_PWM_PD uDC chan .DC_OUTP_LO = ⟨false, none, some false⟩
      ∧ PWM_set_output_channel TIM2_PWM_PD uDC chan .DC_OUTP_HI = ⟨false, none, some true⟩
      ∧ PWM_set_output_channel TIM2_PWM_PD uDC chan .DC_PWM_PLUS = ⟨true, some uDC, none⟩
      ∧ PWM_set_output_channel TIM2_PWM_PD uDC chan .DC_PWM_MINUS = ⟨false, none, some false⟩ :=
  fun _ _ _ => ⟨rfl, rfl, rfl, rfl, rfl, rfl, rfl, rfl, rfl, rfl⟩

/-- Claim C6 counterexample: with PWM period 260, requesting duty 260
(at the period ceiling) is not clamped: `PWM_Set_DC` stores 260
verbatim, and the translator then emits an enabled PWM channel with
compare value 260 — outside `[0, 260)` and not a forced-high output
with the channel disabled. -/
theorem PWM_Set_DC_no_clamp_counterexample :
    (PWM_Set_DC ⟨.BLDC_ON, 10, 30⟩ 260).global_uDC = 260
    ∧ (PWM_set_output_channel 260 260 0 .DC_PWM_PLUS).cc_enabled = true
    ∧ (PWM_set_output_channel 260 260 0 .DC_PWM_PLUS).compare = some 260
    ∧ ¬ (260 : Nat) < 260 := by
  decide

/-- Claim C6 (amended): the driver performs no clamping of the
commanded duty: `PWM_Set_DC` stores the requested value verbatim in
every state (the zeroing in `BLDC_OFF` is commented out), and for a
`DC_PWM_PLUS` intent the translator emits an enabled compare channel
with compare exactly the stored duty, for every duty value — including
0 (the channel stays enabled at compare 0 rather than collapsing to a
forced-low) and values at or above the PWM period (no saturation to a
forced-high with the channel disabled); the only duty-0 cutoff is
`BLDC_Step`'s all-off branch. -/
theorem PWM_Set_DC_no_clamping :
    ∀ (s : BLDC_Globals) (TIM2_PWM_PD d chan : Nat),
      (PWM_Set_DC s d).global_uDC = d
      ∧ PWM_set_output_channel TIM2_PWM_PD d chan .DC_PWM_PLUS = ⟨true, some d, none⟩ :=
  fun _ _ _ _ => ⟨rfl, rfl⟩

/-- Invariant used for claim C7: in every reachable state, if the motor
state is `BLDC_OFF` then the commanded duty cycle is 0.  Proved by
induction over reachability: `BLDC_Stop` zeroes the duty as it enters
`BLDC_OFF`, `BLDC_Update` preserves the duty in `BLDC_OFF` and never
re-enters it, and the speed commands leave `BLDC_OFF` without touching
the duty. -/
theorem off_implies_duty_zero (TIM2_PWM_PD : Nat) (s : BLDC_Globals)
    (h : BLDC_Reachable TIM2_PWM_PD s) :
    s.BLDC_State = .BLDC_OFF → s.global_uDC = 0 := by
  induction h with
  | init => intro _; rfl
  | step c t _ ih =>
    obtain ⟨st, tm, dc⟩ := t
    cases c with
    | stop => intro _; rfl
    | spd_inc =>
      simp only [BLDC_run, BLDC_Spd_inc]
      cases st <;> intro hoff <;> (try split at hoff) <;> (try split at hoff) <;> simp_all
    | spd_dec =>
      simp only [BLDC_run, BLDC_Spd_dec]
      cases st <;> intro hoff <;> (try split at hoff) <;> (try split at hoff) <;> simp_all
    | update =>
      cases st with
      | BLDC_OFF => intro _; exact ih rfl
      | BLDC_ON => intro hoff; cases hoff
      | BLDC_RAMPUP =>
        simp only [BLDC_run, BLDC_Update, PWM_Set_DC]
        split <;> intro hoff <;> cases hoff

/-- Claim C7: in every reachable state with motor state `BLDC_OFF` the
commanded duty cycle is 0; and whenever the commanded duty cycle is 0,
a commutation step (`BLDC_Step`) drives no PWM channel: all three
gate-driver shutdown pins are cleared and all three phase outputs are
the disabled, forced-low command, never an active PWM compare. -/
theorem BLDC_off_and_zero_duty_safe :
    ∀ (TIM2_PWM_PD : Nat) (s : BLDC_Globals) (sector : Nat),
      (BLDC_Reachable TIM2_PWM_PD s → s.BLDC_State = .BLDC_OFF → s.global_uDC = 0)
      ∧ (s.global_uDC = 0 →
          (BLDC_Step TIM2_PWM_PD s.global_uDC sector).2 =
            ((false, false, false),
             (⟨false, none, some false⟩, ⟨false, none, some false⟩,
              ⟨false, none, some false⟩))) := by
  intro TIM2_PWM_PD s sector
  refine ⟨fun hr hoff => off_implies_duty_zero TIM2_PWM_PD s hr hoff, fun hz => ?_⟩
  rw [hz]
  rfl

/-- Claim C7 witness: the power-on state is reachable, is `BLDC_OFF`
with duty 0, and a commutation step from it drives everything off. -/
theorem BLDC_off_and_zero_duty_safe_witness :
    BLDC_init.global_uDC = 0
    ∧ (BLDC_Step 260 BLDC_init.global_uDC 0).2 =
        ((false, false, false),
         (⟨false, none, some false⟩, ⟨false, none, some false⟩,
          ⟨false, none, some false⟩)) :=
  ⟨(BLDC_off_and_zero_duty_safe 260 BLDC_init 0).1 BLDC_Reachable.init rfl,
   (BLDC_off_and_zero_duty_safe 260 BLDC_init 0).2 rfl⟩

/-- Claim C8: each `BLDC_Step` advances the sector index to
`(sector + 1) % 6`; from every starting sector in `[0,6)` the index is
strictly periodic with period 6 under repeated steps (6 steps return to
the start, and 1..5 steps never do), and the advanced index always
stays in `[0,6)`. -/
theorem BLDC_Step_sector_periodic :
    ∀ (TIM2_PWM_PD uDC : Nat) (s : Fin 6) (k : Fin 5),
      (BLDC_Step TIM2_PWM_PD uDC s.val).1 = (s.val + 1) % 6
      ∧ (fun n => (BLDC_Step TIM2_PWM_PD uDC n).1)^[6] s.val = s.val
      ∧ (fun n => (BLDC_Step TIM2_PWM_PD uDC n).1)^[k.val + 1] s.val ≠ s.val
      ∧ (BLDC_Step TIM2_PWM_PD uDC s.val).1 < 6 := by
  intro TIM2_PWM_PD uDC s k
  have hstep : (fun n => (BLDC_Step TIM2_PWM_PD uDC n).1) = fun n => (n + 1) % 6 := rfl
  refine ⟨rfl, ?_, ?_, ?_⟩
  · rw [hstep]
    revert s
    decide
  · rw [hstep]
    revert s k
    decide
  · show (s.val + 1) % 6 < 6
    exact Nat.mod_lt _ (by decide)

/-- Claim C9: for every duty `d` strictly below the PWM period (with
the period a valid `uint16_t` value), the pulse produced by
`_set_output` for `DC_PWM_PLUS` plus the pulse produced for
`DC_PWM_MINUS` equals exactly the PWM period. -/
theorem set_output_complementary_sum :
    ∀ (TIM2_PWM_PD d chan : Nat), d < TIM2_PWM_PD → TIM2_PWM_PD < 65536 →
      _set_output TIM2_PWM_PD d chan .DC_PWM_PLUS
        + _set_output TIM2_PWM_PD d chan .DC_PWM_MINUS = TIM2_PWM_PD := by
  intro TIM2_PWM_PD d chan h1 h2
  show d + usub16 TIM2_PWM_PD d = TIM2_PWM_PD
  unfold usub16
  omega

/-- Claim C9 witness: concrete complementary pair at period 260, duty 30. -/
theorem set_output_complementary_sum_witness :
    _set_output 260 30 0 .DC_PWM_PLUS + _set_output 260 30 0 .DC_PWM_MINUS = 260 :=
  set_output_complementary_sum 260 30 0 (by decide) (by decide)

/-- Claim C10: the speed commands are characterized by: from `BLDC_OFF`
they only switch the state to `BLDC_RAMPUP` (period and duty
untouched); in `BLDC_ON` they only move the commutation period by one
within its manual bounds; in every other case — in particular whenever
the state is `BLDC_RAMPUP` — they are a complete no-op on all three
globals. -/
theorem BLDC_speed_cmds_frame :
    ∀ s : BLDC_Globals,
      BLDC_Spd_inc s =
        (if s.BLDC_State = .BLDC_OFF then { s with BLDC_State := .BLDC_RAMPUP }
         else if s.BLDC_State = .BLDC_ON ∧ BLDC_OL_TM_MANUAL_HI_LIM < s.BLDC_OL_comm_tm then
           { s with BLDC_OL_comm_tm := s.BLDC_OL_comm_tm - 1 }
         else s)
      ∧ BLDC_Spd_dec s =
        (if s.BLDC_State = .BLDC_OFF then { s with BLDC_State := .BLDC_RAMPUP }
         else if s.BLDC_State = .BLDC_ON ∧ s.BLDC_OL_comm_tm < 0xFFFF then
           { s with BLDC_OL_comm_tm := s.BLDC_OL_comm_tm + 1 }
         else s)
      ∧ (s.BLDC_State = .BLDC_RAMPUP → BLDC_Spd_inc s = s ∧ BLDC_Spd_dec s = s) := by
  intro s
  obtain ⟨st, tm, dc⟩ := s
  refine ⟨?_, ?_, ?_⟩
  · cases st <;> simp [BLDC_Spd_inc]
  · cases st <;> simp [BLDC_Spd_dec]
  · intro hru
    cases hru
    constructor
    · simp [BLDC_Spd_inc]
    · simp [BLDC_Spd_dec]

/-- Claim C10 witness: in a concrete `BLDC_RAMPUP` state both speed
commands are no-ops. -/
theorem BLDC_speed_cmds_frame_witness :
    BLDC_Spd_inc ⟨.BLDC_RAMPUP, 100, 50⟩ = ⟨.BLDC_RAMPUP, 100, 50⟩
    ∧ BLDC_Spd_dec ⟨.BLDC_RAMPUP, 100, 50⟩ = ⟨.BLDC_RAMPUP, 100, 50⟩ :=
  (BLDC_speed_cmds_frame ⟨.BLDC_RAMPUP, 100, 50⟩).2.2 rfl

end Driver
